import Mathlib

/-!
Shallow embedding of the nest-realtime-service repository: the realtime
gateway (src/realtime/realtime.gateway.ts), the messages service
(src/messages/messages.service.ts) and the HTTP messages controller.
External collaborators (the jsonwebtoken verifier, the Prisma message
store, the socket.io room transport) are modelled by explicit parameters
carrying their outcome; the persisted message table is a list of rows.
-/

/-- Roles recognised by the application (gateway and service type Role). -/
inductive Role where
  | USER
  | ADMIN
deriving DecidableEq, Repr

/-- Channel identifiers (gateway and service type ChannelKey). -/
inductive ChannelKey where
  | general
  | support
deriving DecidableEq, Repr

/-- Persisted message row, as selected by the Prisma queries:
id, channelKey, authorId, authorRole, content, createdAt. -/
structure Message where
  id : String
  channelKey : ChannelKey
  authorId : String
  authorRole : Role
  content : String
  createdAt : Nat
deriving DecidableEq, Repr

/-- Authenticated websocket user (gateway type WsUser). -/
structure WsUser where
  id : String
  email : Option String
  role : Role
deriving DecidableEq, Repr

/-- Authenticated HTTP user, as produced by getUserFromReq. -/
structure HttpUser where
  id : String
  role : Role
deriving DecidableEq, Repr

/-- Decoded JWT payload after a successful cryptographic verification.
Claims are optional strings: absent claims are none; a role claim of any
other shape behaves like an unrecognized string. -/
structure JwtPayload where
  sub : Option String
  email : Option String
  role : Option String
deriving DecidableEq, Repr

/-- Thrown JavaScript error value; only its optional message is observed
by the catch blocks (they read e.message with a fallback). -/
structure Exc where
  message : Option String
deriving DecidableEq, Repr

instance {ε α : Type} [DecidableEq ε] [DecidableEq α] : DecidableEq (Except ε α) :=
  fun a b =>
    match a, b with
    | Except.error e1, Except.error e2 =>
      if h : e1 = e2 then isTrue (by rw [h]) else isFalse (by intro hc; cases hc; exact h rfl)
    | Except.ok v1, Except.ok v2 =>
      if h : v1 = v2 then isTrue (by rw [h]) else isFalse (by intro hc; cases hc; exact h rfl)
    | Except.error _, Except.ok _ => isFalse (by intro hc; cases hc)
    | Except.ok _, Except.error _ => isFalse (by intro hc; cases hc)

/-- JavaScript string truthiness for optional strings: undefined and the
empty string are falsy. -/
def truthy (o : Option String) : Option String :=
  match o with
  | none => none
  | some s => if s = "" then none else some s

/-- Character-level test that the second list starts with the first. -/
def startsWithChars : List Char → List Char → Bool
  | [], _ => true
  | _ :: _, [] => false
  | p :: ps, c :: cs => p = c && startsWithChars ps cs

/-- extractBearer from the gateway and the controller: returns the token
after a Bearer prefix, otherwise undefined. Strings are handled through
their character lists. -/
def extractBearer (auth : Option String) : Option String :=
  match truthy auth with
  | none => none
  | some v =>
    if startsWithChars ("Bearer ".toList) v.toList then
      some (String.mk (v.toList.drop 7))
    else none

/-- Gateway role normalisation: payload.role when it is ADMIN or USER,
USER otherwise (handleConnection). -/
def wsRoleOf (claim : Option String) : Role :=
  if claim = some ("ADMIN") then Role.ADMIN
  else if claim = some ("USER") then Role.USER
  else Role.USER

/-- Controller role normalisation: payload.role when it is ADMIN or USER,
undefined otherwise (getUserFromReq). -/
def httpRoleOf (claim : Option String) : Option Role :=
  if claim = some ("ADMIN") then some Role.ADMIN
  else if claim = some ("USER") then some Role.USER
  else none

/-- Signal emitted to the connecting client during the handshake. -/
inductive WsEmit where
  | authError (error : String)
  | authOk (id : String) (role : Role)
deriving DecidableEq, Repr

/-- Outcome of handleConnection: the user stored on client.data and the
signal emitted to the client. -/
structure ConnOutcome where
  user : Option WsUser
  emit : WsEmit
deriving DecidableEq, Repr

/-- handleConnection of the realtime gateway. The token is taken from
handshake.auth.token, falling back to the Authorization header; the
secret is the JWT_ACCESS_SECRET environment variable; the result of
jwt.verify on that token and secret is passed in explicitly (error for a
thrown verification failure). -/
def handleConnection (authToken header secret : Option String)
    (verified : Except String JwtPayload) : ConnOutcome :=
  let token :=
    match truthy authToken with
    | some t => some t
    | none => extractBearer header
  match truthy secret with
  | none => { user := none, emit := WsEmit.authError ("JWT_ACCESS_SECRET is not set") }
  | some _ =>
    match truthy token with
    | none => { user := none, emit := WsEmit.authError ("Missing token") }
    | some _ =>
      match verified with
      | Except.error m =>
        { user := none, emit := WsEmit.authError ("JWT verify failed: " ++ m) }
      | Except.ok payload =>
        let role := wsRoleOf payload.role
        match truthy payload.sub with
        | none => { user := none, emit := WsEmit.authError ("Invalid token payload") }
        | some sub =>
          { user := some { id := sub, email := payload.email, role := role },
            emit := WsEmit.authOk sub role }

/-- getUserFromReq of the messages controller: extracts the bearer token,
requires the secret and the token, verifies, and accepts the payload only
when both a subject id and a recognised role claim are present. -/
def getUserFromReq (header secret : Option String)
    (verified : Except String JwtPayload) : Option HttpUser :=
  match truthy secret, truthy (extractBearer header) with
  | some _, some _ =>
    match verified with
    | Except.error _ => none
    | Except.ok payload =>
      match truthy payload.sub, httpRoleOf payload.role with
      | some id, some role => some { id := id, role := role }
      | some _, none => none
      | none, _ => none
  | some _, none => none
  | none, _ => none

/-- assertChannelAccess of the messages service: throws a
ForbiddenException for the support channel unless the role is ADMIN. -/
def assertChannelAccess (channel : ChannelKey) (role : Role) : Except Exc Unit :=
  if channel = ChannelKey.support ∧ role ≠ Role.ADMIN then
    Except.error { message := some ("No access to support channel") }
  else
    Except.ok ()

/-- assertAdmin of the messages service: throws a ForbiddenException
unless the role is ADMIN. -/
def assertAdmin (role : Role) : Except Exc Unit :=
  if role ≠ Role.ADMIN then Except.error { message := some ("ADMIN only") }
  else Except.ok ()

/-- Result object returned to the caller of a gateway handler; absent
fields of the JavaScript object literals are none. -/
structure WsResult where
  ok : Bool
  joined : Option ChannelKey := none
  messageId : Option String := none
  error : Option String := none
deriving DecidableEq, Repr

/-- Input of the message store create call (createMessage). -/
structure CreateInput where
  channelKey : ChannelKey
  authorId : String
  authorRole : Role
  content : String
deriving DecidableEq, Repr

/-- Ordered trace of the calls a gateway handler issues: the auth.error
emit of getUserOrFail, the socket.io room join, the store create call,
and the room broadcast of a persisted record. -/
inductive Effect where
  | emitAuthError (error : String)
  | joinRoom (room : ChannelKey)
  | persist (input : CreateInput)
  | broadcast (room : ChannelKey) (msg : Message)
deriving DecidableEq, Repr

/-- Fallback read of a thrown error message, as in the catch blocks. -/
def excMessage (e : Exc) (fallback : String) : String :=
  match e.message with
  | some m => m
  | none => fallback

/-- join handler of the gateway (event channel.join). The outcome of the
awaited socket.io room join is passed in explicitly. Returns the result
object and the trace of issued calls. -/
def join (user : Option WsUser) (channel : ChannelKey)
    (roomJoin : Except Exc Unit) : WsResult × List Effect :=
  match user with
  | none =>
    ({ ok := false, error := some ("UNAUTHORIZED") },
      [Effect.emitAuthError ("UNAUTHORIZED")])
  | some u =>
    match assertChannelAccess channel u.role with
    | Except.error e =>
      ({ ok := false, error := some (excMessage e ("JOIN_FAILED")) }, [])
    | Except.ok _ =>
      match roomJoin with
      | Except.error e =>
        ({ ok := false, error := some (excMessage e ("JOIN_FAILED")) },
          [Effect.joinRoom channel])
      | Except.ok _ =>
        ({ ok := true, joined := some channel }, [Effect.joinRoom channel])

/-- Whitespace recognised by the JavaScript String trim: WhiteSpace and
LineTerminator code points. -/
def isJsSpace (c : Char) : Bool :=
  decide (c.toNat = 0x20) ||
  (decide (0x9 ≤ c.toNat) && decide (c.toNat ≤ 0xd)) ||
  decide (c.toNat = 0xa0) || decide (c.toNat = 0x1680) ||
  (decide (0x2000 ≤ c.toNat) && decide (c.toNat ≤ 0x200a)) ||
  decide (c.toNat = 0x2028) || decide (c.toNat = 0x2029) ||
  decide (c.toNat = 0x202f) || decide (c.toNat = 0x205f) ||
  decide (c.toNat = 0x3000) || decide (c.toNat = 0xfeff)

/-- JavaScript String trim: removes leading and trailing whitespace. -/
def jsTrim (s : String) : String :=
  String.mk (((s.toList.dropWhile isJsSpace).reverse.dropWhile isJsSpace).reverse)

/-- send handler of the gateway (event message.send). The message store
create call is passed in as a function from the create input to its
outcome; body.content is optional (undefined becomes the empty string).
Returns the result object and the trace of issued calls. -/
def send (user : Option WsUser) (channel : ChannelKey) (content : Option String)
    (store : CreateInput → Except Exc Message) : WsResult × List Effect :=
  match user with
  | none =>
    ({ ok := false, error := some ("UNAUTHORIZED") },
      [Effect.emitAuthError ("UNAUTHORIZED")])
  | some u =>
    match assertChannelAccess channel u.role with
    | Except.error e =>
      ({ ok := false, error := some (excMessage e ("SEND_FAILED")) }, [])
    | Except.ok _ =>
      let trimmed := jsTrim (content.getD "")
      if trimmed = "" ∨ trimmed.length > 500 then
        ({ ok := false, error := some ("Invalid content") }, [])
      else
        let input : CreateInput :=
          { channelKey := channel, authorId := u.id, authorRole := u.role,
            content := trimmed }
        match store input with
        | Except.error e =>
          ({ ok := false, error := some (excMessage e ("SEND_FAILED")) },
            [Effect.persist input])
        | Except.ok saved =>
          ({ ok := true, messageId := some saved.id },
            [Effect.persist input, Effect.broadcast channel saved])

/-- Descending creation-time order used by the listing query
(orderBy createdAt desc). -/
def msgDescRel (a b : Message) : Prop := b.createdAt ≤ a.createdAt

instance : DecidableRel msgDescRel := fun a b => Nat.decLe b.createdAt a.createdAt

instance : IsTotal Message msgDescRel :=
  ⟨fun a b => Nat.le_total b.createdAt a.createdAt⟩

instance : IsTrans Message msgDescRel :=
  ⟨fun _ _ _ h1 h2 => Nat.le_trans h2 h1⟩

/-- Rows of one channel in the order the store returns them: filtered by
channelKey and sorted by createdAt descending. -/
def channelRows (table : List Message) (channelKey : ChannelKey) : List Message :=
  List.insertionSort msgDescRel (table.filter (fun m => m.channelKey = channelKey))

/-- Cursor paging over an ordered row stream, as Prisma findMany applies
take, cursor and skip 1: without a cursor the first rows; with a cursor,
the rows strictly after the row carrying the cursor id (exclusive). -/
def pageOf (l : List Message) (t : Nat) (cursor : Option String) : List Message :=
  match cursor with
  | none => l.take t
  | some c => ((l.dropWhile (fun m => !(m.id = c : Bool))).drop 1).take t

/-- listMessages of the messages service over the modelled table. -/
def listMessages (table : List Message) (channelKey : ChannelKey) (t : Nat)
    (cursor : Option String) : List Message :=
  pageOf (channelRows table channelKey) t cursor

/-- Response of flushChannel. -/
structure FlushResult where
  deleted : Nat
  channelKey : ChannelKey
deriving DecidableEq, Repr

/-- flushChannel of the messages service: deleteMany on the channel;
returns the count of deleted rows and the remaining table. -/
def flushChannel (table : List Message) (channelKey : ChannelKey) :
    FlushResult × List Message :=
  ({ deleted := (table.filter (fun m => m.channelKey = channelKey)).length,
     channelKey := channelKey },
   table.filter (fun m => !(m.channelKey = channelKey : Bool)))

/-- Response of deleteMessageById. -/
structure DeleteResult where
  deleted : Bool
  id : String
  channelKey : ChannelKey
deriving DecidableEq, Repr

/-- deleteMessageById of the messages service: findUnique on the id,
NotFoundException when absent, otherwise delete the row and report the
channel of the deleted row. -/
def deleteMessageById (table : List Message) (id : String) :
    Except Exc (DeleteResult × List Message) :=
  match table.find? (fun m => m.id = id) with
  | none => Except.error { message := some ("Message not found") }
  | some existing =>
    Except.ok
      ({ deleted := true, id := id, channelKey := existing.channelKey },
       table.filter (fun m => !(m.id = id : Bool)))

/-- Query of the GET messages endpoint (ListMessagesQueryDto). -/
structure ListQuery where
  channel : ChannelKey
  cursor : Option String
  take : Option Nat
deriving DecidableEq, Repr

/-- DTO validation of the list query: take, when present, must be an
integer between 1 and 100 (class-validator Min 1, Max 100). -/
def validListQuery (q : ListQuery) : Bool :=
  match q.take with
  | none => true
  | some n => decide (1 ≤ n) && decide (n ≤ 100)

/-- Response of an HTTP handler: the UNAUTHORIZED error body, a thrown
exception surfaced by the framework, or the successful value. -/
inductive ApiResult (α : Type) where
  | errorBody (error : String)
  | thrown (message : String)
  | ok (value : α)
deriving DecidableEq, Repr

/-- list handler of the messages controller (GET): DTO validation, then
per-request authentication, channel access check, default page size 50,
and delegation to listMessages. -/
def listHandler (user : Option HttpUser) (table : List Message) (q : ListQuery) :
    ApiResult (List Message) :=
  if !validListQuery q then ApiResult.thrown ("Validation failed")
  else
    match user with
    | none => ApiResult.errorBody ("UNAUTHORIZED")
    | some u =>
      match assertChannelAccess q.channel u.role with
      | Except.error e => ApiResult.thrown (excMessage e ("Forbidden"))
      | Except.ok _ =>
        ApiResult.ok (listMessages table q.channel (q.take.getD 50) q.cursor)

/-- flush handler of the messages controller (DELETE flush):
per-request authentication, admin check, delegation to flushChannel.
Returns the response and the table after the call. -/
def flushHandler (user : Option HttpUser) (table : List Message)
    (channel : ChannelKey) : ApiResult FlushResult × List Message :=
  match user with
  | none => (ApiResult.errorBody ("UNAUTHORIZED"), table)
  | some u =>
    match assertAdmin u.role with
    | Except.error e => (ApiResult.thrown (excMessage e ("Forbidden")), table)
    | Except.ok _ =>
      let r := flushChannel table channel
      (ApiResult.ok r.1, r.2)

/-- delete-one handler of the messages controller (DELETE by id):
per-request authentication, admin check, delegation to
deleteMessageById. Returns the response and the table after the call. -/
def deleteOneHandler (user : Option HttpUser) (table : List Message)
    (id : String) : ApiResult DeleteResult × List Message :=
  match user with
  | none => (ApiResult.errorBody ("UNAUTHORIZED"), table)
  | some u =>
    match assertAdmin u.role with
    | Except.error e => (ApiResult.thrown (excMessage e ("Forbidden")), table)
    | Except.ok _ =>
      match deleteMessageById table id with
      | Except.error e => (ApiResult.thrown (excMessage e ("Error")), table)
      | Except.ok (r, rest) => (ApiResult.ok r, rest)

/-- Repeated listing with successive cursors: each step lists a page of
the given row stream, then continues from the id of the last row of that
page; it stops on an empty page or when the fuel runs out. -/
def pagesAux (l : List Message) (t : Nat) : Nat → Option String → List Message
  | 0, _ => []
  | f + 1, c =>
    let page := pageOf l t c
    match page.getLast? with
    | none => []
    | some last => page ++ pagesAux l t f (some last.id)

/-- Paging through a whole channel: repeated listMessages calls with
successive cursors, starting without a cursor. -/
def pageAll (table : List Message) (channelKey : ChannelKey) (t fuel : Nat) :
    List Message :=
  pagesAux (channelRows table channelKey) t fuel none

theorem startsWithChars_append (p rest : List Char) :
    startsWithChars p (p ++ rest) = true := by
  induction p with
  | nil => rfl
  | cons a ps ih => simp [startsWithChars, ih]

theorem extractBearer_bearer (tok : String) :
    extractBearer (some ("Bearer " ++ tok)) = some tok := by
  have hne : ("Bearer " ++ tok) ≠ "" := by
    intro h
    have := congrArg String.data h
    simp [String.data_append] at this
  have hdata : ("Bearer " ++ tok).toList = "Bearer ".toList ++ tok.toList := by
    simp [String.toList, String.data_append]
  simp only [extractBearer, truthy, if_neg hne, hdata, startsWithChars_append, if_pos]
  have h7 : ("Bearer ".toList).length = 7 := rfl
  rw [← h7, List.drop_left]
  cases tok
  rfl

/-- C3: the access policy is exact: channel access is denied precisely for
the support channel without the ADMIN role, and the admin check holds
precisely for the ADMIN role. -/
theorem access_policy_exact :
    (∀ (channel : ChannelKey) (role : Role),
        assertChannelAccess channel role = Except.ok () ↔
          ¬(channel = ChannelKey.support ∧ role ≠ Role.ADMIN)) ∧
    (∀ role : Role, assertAdmin role = Except.ok () ↔ role = Role.ADMIN) := by
  refine ⟨fun channel role => ?_, fun role => ?_⟩
  · cases channel <;> cases role <;> simp [assertChannelAccess]
  · cases role <;> simp [assertAdmin]

/-- C1 counterexample: one credential whose payload carries no role claim is
accepted with role USER by the live-connection handshake, but rejected by the
per-request HTTP verification, so verification does not succeed on both
paths. -/
theorem role_default_counterexample :
    (handleConnection (some "tok") none (some "sec")
        (Except.ok { sub := some "u1", email := none, role := none })).user
      = some { id := "u1", email := none, role := Role.USER } ∧
    getUserFromReq (some "Bearer tok") (some "sec")
        (Except.ok { sub := some "u1", email := none, role := none }) = none := by
  decide

/-- C1 amended: for a verified credential with an unrecognized or absent role
claim, the live-connection handshake succeeds and maps the role to USER,
while the per-request HTTP verification rejects the credential outright, so
neither path escalates privilege but only the handshake defaults to USER. -/
theorem role_default_amended (tok sec sub : String) (email roleClaim : Option String)
    (htok : tok ≠ "") (hsec : sec ≠ "") (hsub : sub ≠ "")
    (hA : roleClaim ≠ some ("ADMIN")) (hU : roleClaim ≠ some ("USER")) :
    (handleConnection none (some ("Bearer " ++ tok)) (some sec)
        (Except.ok { sub := some sub, email := email, role := roleClaim })).user
      = some { id := sub, email := email, role := Role.USER } ∧
    getUserFromReq (some ("Bearer " ++ tok)) (some sec)
        (Except.ok { sub := some sub, email := email, role := roleClaim }) = none := by
  have hx := extractBearer_bearer tok
  constructor
  · simp [handleConnection, truthy, hsec, hx, htok, hsub, wsRoleOf, hA, hU]
  · simp [getUserFromReq, truthy, hsec, hx, htok, hsub, httpRoleOf, hA, hU]

theorem role_default_amended_witness :
    ((("tok" : String) ≠ "") ∧ (("sec" : String) ≠ "") ∧ (("u1" : String) ≠ "") ∧
      (some ("MOD") ≠ some ("ADMIN")) ∧ (some ("MOD") ≠ some ("USER"))) ∧
    ((handleConnection none (some ("Bearer " ++ "tok")) (some "sec")
        (Except.ok { sub := some "u1", email := none, role := some ("MOD") })).user
      = some { id := "u1", email := none, role := Role.USER } ∧
    getUserFromReq (some ("Bearer " ++ "tok")) (some "sec")
        (Except.ok { sub := some "u1", email := none, role := some ("MOD") }) = none) :=
  ⟨by decide,
   role_default_amended "tok" "sec" "u1" none (some ("MOD"))
     (by decide) (by decide) (by decide) (by decide) (by decide)⟩

/-- C4: when the handshake did not store a user on the connection, every
subsequent join and send call returns the UNAUTHORIZED result and issues no
room join, no store call and no broadcast. -/
theorem unauthenticated_short_circuit (authToken header secret : Option String)
    (verified : Except String JwtPayload) (channel : ChannelKey)
    (content : Option String) (roomJoin : Except Exc Unit)
    (store : CreateInput → Except Exc Message)
    (h : (handleConnection authToken header secret verified).user = none) :
    join (handleConnection authToken header secret verified).user channel roomJoin
      = ({ ok := false, error := some ("UNAUTHORIZED") },
          [Effect.emitAuthError ("UNAUTHORIZED")]) ∧
    send (handleConnection authToken header secret verified).user channel content store
      = ({ ok := false, error := some ("UNAUTHORIZED") },
          [Effect.emitAuthError ("UNAUTHORIZED")]) := by
  rw [h]
  exact ⟨rfl, rfl⟩

theorem unauthenticated_short_circuit_witness :
    ((handleConnection none none none (Except.error "boom")).user = none) ∧
    (join (handleConnection none none none (Except.error "boom")).user
        ChannelKey.general (Except.ok ())
      = ({ ok := false, error := some ("UNAUTHORIZED") },
          [Effect.emitAuthError ("UNAUTHORIZED")]) ∧
    send (handleConnection none none none (Except.error "boom")).user
        ChannelKey.general (some "hi") (fun _ => Except.error { message := none })
      = ({ ok := false, error := some ("UNAUTHORIZED") },
          [Effect.emitAuthError ("UNAUTHORIZED")])) :=
  ⟨by decide,
   unauthenticated_short_circuit none none none (Except.error "boom")
     ChannelKey.general (some "hi") (Except.ok ())
     (fun _ => Except.error { message := none }) (by decide)⟩

/-- C6 counterexample: an unexpected internal failure of the room join that
carries its own message is converted to a result holding that message, not
the error JOIN_FAILED. -/
theorem join_error_message_counterexample :
    (join (some { id := "u1", email := none, role := Role.USER })
        ChannelKey.general (Except.error { message := some ("socket closed") })).1
      ≠ ({ ok := false, error := some ("JOIN_FAILED") } : WsResult) ∧
    join (some { id := "u1", email := none, role := Role.USER })
        ChannelKey.general (Except.error { message := some ("socket closed") })
      = ({ ok := false, error := some ("socket closed") },
          [Effect.joinRoom ChannelKey.general]) := by
  decide

/-- C6 amended: any internal failure of the join handler beyond the
UNAUTHORIZED short-circuit is caught and converted to a structured result
with ok false, whose error is the failure's own message when it carries one
and JOIN_FAILED otherwise; no input produces an unhandled fault. -/
theorem join_failure_structured (u : WsUser) (channel : ChannelKey) (e : Exc)
    (hacc : assertChannelAccess channel u.role = Except.ok ()) :
    join (some u) channel (Except.error e)
      = ({ ok := false, error := some (excMessage e ("JOIN_FAILED")) },
          [Effect.joinRoom channel]) := by
  simp [join, hacc]

theorem join_failure_structured_witness :
    (assertChannelAccess ChannelKey.general Role.USER = Except.ok ()) ∧
    join (some { id := "u1", email := none, role := Role.USER })
        ChannelKey.general (Except.error { message := none })
      = ({ ok := false, error := some ("JOIN_FAILED") },
          [Effect.joinRoom ChannelKey.general]) :=
  ⟨by decide,
   join_failure_structured { id := "u1", email := none, role := Role.USER }
     ChannelKey.general { message := none } (by decide)⟩

/-- C10 counterexample: a sendMessage call with the content field absent on
an unauthenticated connection returns UNAUTHORIZED, not the invalid-content
error, so the claim does not hold for every such call. -/
theorem missing_content_counterexample :
    (send none ChannelKey.general none (fun _ => Except.error { message := none })).1.error
      ≠ some ("Invalid content") ∧
    send none ChannelKey.general none (fun _ => Except.error { message := none })
      = ({ ok := false, error := some ("UNAUTHORIZED") },
          [Effect.emitAuthError ("UNAUTHORIZED")]) := by
  decide

/-- C10 amended: for every sendMessage call by an authenticated principal
whose role may post to the channel and whose payload omits the content
field, the gateway treats the content as the empty string and returns the
invalid-content result, with no store call and no broadcast; the handler is
total over missing content. -/
theorem missing_content_total (u : WsUser) (channel : ChannelKey)
    (store : CreateInput → Except Exc Message)
    (hacc : assertChannelAccess channel u.role = Except.ok ()) :
    send (some u) channel none store
      = ({ ok := false, error := some ("Invalid content") }, []) := by
  have h0 : jsTrim "" = "" := rfl
  simp [send, hacc, h0]

theorem missing_content_total_witness :
    (assertChannelAccess ChannelKey.general Role.USER = Except.ok ()) ∧
    send (some { id := "u1", email := none, role := Role.USER })
        ChannelKey.general none (fun _ => Except.error { message := none })
      = ({ ok := false, error := some ("Invalid content") }, []) :=
  ⟨by decide,
   missing_content_total { id := "u1", email := none, role := Role.USER }
     ChannelKey.general (fun _ => Except.error { message := none }) (by decide)⟩

/-- C5: for an authorized sendMessage call the raw content is trimmed before
the length check and before storage: the call yields the invalid-content
result with no store call exactly when the trimmed string is empty or longer
than 500 characters, and otherwise the store call carries the trimmed
string, so a trimmed string of exactly 500 characters is accepted. -/
theorem content_validation (u : WsUser) (channel : ChannelKey)
    (content : Option String) (store : CreateInput → Except Exc Message)
    (hacc : assertChannelAccess channel u.role = Except.ok ()) :
    (send (some u) channel content store
        = ({ ok := false, error := some ("Invalid content") }, []) ↔
      (jsTrim (content.getD "") = "" ∨ (jsTrim (content.getD "")).length > 500)) ∧
    (¬(jsTrim (content.getD "") = "" ∨ (jsTrim (content.getD "")).length > 500) →
      (send (some u) channel content store).2.head?
        = some (Effect.persist
            { channelKey := channel, authorId := u.id, authorRole := u.role,
              content := jsTrim (content.getD "") })) := by
  by_cases hv : jsTrim (content.getD "") = "" ∨ (jsTrim (content.getD "")).length > 500
  · refine ⟨?_, ?_⟩
    · simp [send, hacc, hv]
    · intro h
      exact absurd hv h
  · refine ⟨⟨?_, ?_⟩, ?_⟩
    · intro h
      exfalso
      have h2 := congrArg Prod.snd h
      rcases hst : store
          ({ channelKey := channel, authorId := u.id, authorRole := u.role,
             content := jsTrim (content.getD "") }) with e | m <;>
        simp [send, hacc, hv, hst] at h2
    · intro h
      exact absurd h hv
    · intro _
      rcases hst : store
          ({ channelKey := channel, authorId := u.id, authorRole := u.role,
             content := jsTrim (content.getD "") }) with e | m <;>
        simp [send, hacc, hv, hst]

theorem content_validation_witness :
    (assertChannelAccess ChannelKey.general Role.USER = Except.ok ()) ∧
    send (some { id := "u1", email := none, role := Role.USER })
        ChannelKey.general (some "   ") (fun _ => Except.error { message := none })
      = ({ ok := false, error := some ("Invalid content") }, []) ∧
    (send (some { id := "u1", email := none, role := Role.USER })
        ChannelKey.general (some "  hi  ")
        (fun _ => Except.error { message := none })).2.head?
      = some (Effect.persist
          { channelKey := ChannelKey.general, authorId := "u1",
            authorRole := Role.USER, content := "hi" }) :=
  ⟨by decide,
   (content_validation { id := "u1", email := none, role := Role.USER }
       ChannelKey.general (some "   ")
       (fun _ => Except.error { message := none }) (by decide)).1.mpr (by decide),
   by
     have h := (content_validation { id := "u1", email := none, role := Role.USER }
       ChannelKey.general (some "  hi  ")
       (fun _ => Except.error { message := none }) (by decide)).2 (by decide)
     have ht : jsTrim ((some "  hi  ").getD "") = "hi" := by decide
     rw [ht] at h
     exact h⟩

/-- C2: for an authenticated, authorized sendMessage call with valid content,
the broadcast to the channel room is issued strictly after the store create
call and only when that call succeeded, carries the full persisted record,
and the sender receives the ok result with the persisted id; when the create
call fails, no broadcast is issued and only the sender receives the error
result. -/
theorem broadcast_after_persist (u : WsUser) (channel : ChannelKey)
    (content : Option String) (store : CreateInput → Except Exc Message)
    (hacc : assertChannelAccess channel u.role = Except.ok ())
    (hne : jsTrim (content.getD "") ≠ "")
    (hlen : (jsTrim (content.getD "")).length ≤ 500) :
    (∀ saved,
      store ({ channelKey := channel, authorId := u.id, authorRole := u.role,
               content := jsTrim (content.getD "") }) = Except.ok saved →
      send (some u) channel content store
        = ({ ok := true, messageId := some saved.id },
            [Effect.persist
               { channelKey := channel, authorId := u.id, authorRole := u.role,
                 content := jsTrim (content.getD "") },
             Effect.broadcast channel saved])) ∧
    (∀ e,
      store ({ channelKey := channel, authorId := u.id, authorRole := u.role,
               content := jsTrim (content.getD "") }) = Except.error e →
      send (some u) channel content store
        = ({ ok := false, error := some (excMessage e ("SEND_FAILED")) },
            [Effect.persist
               { channelKey := channel, authorId := u.id, authorRole := u.role,
                 content := jsTrim (content.getD "") }])) := by
  have hv : ¬(jsTrim (content.getD "") = "" ∨ (jsTrim (content.getD "")).length > 500) := by
    push_neg
    exact ⟨hne, hlen⟩
  constructor
  · intro saved hst
    simp [send, hacc, hv, hst]
  · intro e hst
    simp [send, hacc, hv, hst]

theorem broadcast_after_persist_witness :
    send (some { id := "u1", email := none, role := Role.USER })
        ChannelKey.general (some "hi")
        (fun _ => Except.ok
          { id := "m1", channelKey := ChannelKey.general, authorId := "u1",
            authorRole := Role.USER, content := "hi", createdAt := 1 })
      = ({ ok := true, messageId := some ("m1") },
          [Effect.persist
             { channelKey := ChannelKey.general, authorId := "u1",
               authorRole := Role.USER, content := jsTrim ((some "hi").getD "") },
           Effect.broadcast ChannelKey.general
             { id := "m1", channelKey := ChannelKey.general, authorId := "u1",
               authorRole := Role.USER, content := "hi", createdAt := 1 }]) ∧
    send (some { id := "u1", email := none, role := Role.USER })
        ChannelKey.general (some "hi")
        (fun _ => Except.error { message := some ("db down") })
      = ({ ok := false, error := some ("db down") },
          [Effect.persist
             { channelKey := ChannelKey.general, authorId := "u1",
               authorRole := Role.USER, content := jsTrim ((some "hi").getD "") }]) :=
  ⟨(broadcast_after_persist { id := "u1", email := none, role := Role.USER }
      ChannelKey.general (some "hi")
      (fun _ => Except.ok
        { id := "m1", channelKey := ChannelKey.general, authorId := "u1",
          authorRole := Role.USER, content := "hi", createdAt := 1 })
      (by decide) (by decide) (by decide)).1
    { id := "m1", channelKey := ChannelKey.general, authorId := "u1",
      authorRole := Role.USER, content := "hi", createdAt := 1 } rfl,
   (broadcast_after_persist { id := "u1", email := none, role := Role.USER }
      ChannelKey.general (some "hi")
      (fun _ => Except.error { message := some ("db down") })
      (by decide) (by decide) (by decide)).2
    { message := some ("db down") } rfl⟩

theorem filter_not_filter_nil (table : List Message) (channel : ChannelKey) :
    (table.filter (fun m => !(m.channelKey = channel : Bool))).filter
        (fun m => (m.channelKey = channel : Bool)) = [] := by
  induction table with
  | nil => rfl
  | cons a l ih =>
    by_cases h : a.channelKey = channel <;> simp [List.filter_cons, h, ih]

theorem pageOf_nil (t : Nat) (cursor : Option String) : pageOf [] t cursor = [] := by
  cases cursor <;> simp [pageOf]

theorem channelRows_of_flushed (table : List Message) (channel : ChannelKey) :
    channelRows (table.filter (fun m => !(m.channelKey = channel : Bool))) channel = [] := by
  unfold channelRows
  rw [filter_not_filter_nil]
  rfl

/-- C8: an ADMIN-authenticated flush of a channel reports exactly the number
of rows stored in that channel before the call together with the channel
key, and listing the channel afterwards returns no rows; a non-ADMIN caller
is rejected by the admin check and the table is unchanged. -/
theorem flush_exact (u : HttpUser) (table : List Message) (channel : ChannelKey) :
    (u.role = Role.ADMIN →
      flushHandler (some u) table channel
        = (ApiResult.ok
            { deleted := (table.filter (fun m => (m.channelKey = channel : Bool))).length,
              channelKey := channel },
           table.filter (fun m => !(m.channelKey = channel : Bool))) ∧
      (∀ (t : Nat) (cursor : Option String),
        listMessages (flushHandler (some u) table channel).2 channel t cursor = [])) ∧
    (u.role ≠ Role.ADMIN →
      flushHandler (some u) table channel = (ApiResult.thrown ("ADMIN only"), table)) := by
  constructor
  · intro hr
    have he : flushHandler (some u) table channel
        = (ApiResult.ok
            { deleted := (table.filter (fun m => (m.channelKey = channel : Bool))).length,
              channelKey := channel },
           table.filter (fun m => !(m.channelKey = channel : Bool))) := by
      simp [flushHandler, assertAdmin, hr, flushChannel]
    refine ⟨he, fun t cursor => ?_⟩
    rw [he]
    show listMessages (table.filter (fun m => !(m.channelKey = channel : Bool)))
        channel t cursor = []
    unfold listMessages
    rw [channelRows_of_flushed, pageOf_nil]
  · intro hr
    simp [flushHandler, assertAdmin, hr, excMessage]

theorem flush_exact_witness :
    ((⟨"a1", Role.ADMIN⟩ : HttpUser).role = Role.ADMIN ∧
      flushHandler (some ⟨"a1", Role.ADMIN⟩)
          [{ id := "m1", channelKey := ChannelKey.general, authorId := "u1",
             authorRole := Role.USER, content := "hi", createdAt := 1 },
           { id := "m2", channelKey := ChannelKey.support, authorId := "a1",
             authorRole := Role.ADMIN, content := "yo", createdAt := 2 }]
          ChannelKey.general
        = (ApiResult.ok { deleted := 1, channelKey := ChannelKey.general },
           [{ id := "m2", channelKey := ChannelKey.support, authorId := "a1",
              authorRole := Role.ADMIN, content := "yo", createdAt := 2 }])) ∧
    ((⟨"u9", Role.USER⟩ : HttpUser).role ≠ Role.ADMIN ∧
      flushHandler (some ⟨"u9", Role.USER⟩)
          [{ id := "m1", channelKey := ChannelKey.general, authorId := "u1",
             authorRole := Role.USER, content := "hi", createdAt := 1 }]
          ChannelKey.general
        = (ApiResult.thrown ("ADMIN only"),
           [{ id := "m1", channelKey := ChannelKey.general, authorId := "u1",
              authorRole := Role.USER, content := "hi", createdAt := 1 }])) := by
  constructor
  · constructor
    · rfl
    · have h := (flush_exact ⟨"a1", Role.ADMIN⟩
          [{ id := "m1", channelKey := ChannelKey.general, authorId := "u1",
             authorRole := Role.USER, content := "hi", createdAt := 1 },
           { id := "m2", channelKey := ChannelKey.support, authorId := "a1",
             authorRole := Role.ADMIN, content := "yo", createdAt := 2 }]
          ChannelKey.general).1 rfl
      rw [h.1]
      decide
  · constructor
    · decide
    · exact (flush_exact ⟨"u9", Role.USER⟩
          [{ id := "m1", channelKey := ChannelKey.general, authorId := "u1",
             authorRole := Role.USER, content := "hi", createdAt := 1 }]
          ChannelKey.general).2 (by decide)

/-- C9: an ADMIN-authenticated delete of a message id returns the deleted
flag, the id and the channel key of the deleted row and removes every row
with that id when such a row exists, and returns the typed not-found error
with the table unchanged when it does not. -/
theorem delete_message_exact (u : HttpUser) (table : List Message) (id : String)
    (hu : u.role = Role.ADMIN) :
    (∀ m, table.find? (fun x => (x.id = id : Bool)) = some m →
      deleteOneHandler (some u) table id
        = (ApiResult.ok { deleted := true, id := id, channelKey := m.channelKey },
           table.filter (fun x => !(x.id = id : Bool))) ∧
      (∀ x ∈ (deleteOneHandler (some u) table id).2, x.id ≠ id)) ∧
    (table.find? (fun x => (x.id = id : Bool)) = none →
      deleteOneHandler (some u) table id
        = (ApiResult.thrown ("Message not found"), table)) := by
  constructor
  · intro m hm
    have he : deleteOneHandler (some u) table id
        = (ApiResult.ok { deleted := true, id := id, channelKey := m.channelKey },
           table.filter (fun x => !(x.id = id : Bool))) := by
      simp [deleteOneHandler, assertAdmin, hu, deleteMessageById, hm]
    refine ⟨he, ?_⟩
    rw [he]
    intro x hx
    have hx2 := (List.mem_filter.mp hx).2
    simpa using hx2
  · intro hm
    simp [deleteOneHandler, assertAdmin, hu, deleteMessageById, hm, excMessage]

theorem delete_message_exact_witness :
    ((⟨"a1", Role.ADMIN⟩ : HttpUser).role = Role.ADMIN ∧
      ([{ id := "m1", channelKey := ChannelKey.support, authorId := "u1",
          authorRole := Role.USER, content := "hi", createdAt := 1 },
        { id := "m2", channelKey := ChannelKey.general, authorId := "u2",
          authorRole := Role.USER, content := "yo", createdAt := 2 }]
          : List Message).find? (fun x => (x.id = "m1" : Bool))
        = some { id := "m1", channelKey := ChannelKey.support, authorId := "u1",
                 authorRole := Role.USER, content := "hi", createdAt := 1 } ∧
      deleteOneHandler (some ⟨"a1", Role.ADMIN⟩)
          [{ id := "m1", channelKey := ChannelKey.support, authorId := "u1",
             authorRole := Role.USER, content := "hi", createdAt := 1 },
           { id := "m2", channelKey := ChannelKey.general, authorId := "u2",
             authorRole := Role.USER, content := "yo", createdAt := 2 }] "m1"
        = (ApiResult.ok
            { deleted := true, id := "m1", channelKey := ChannelKey.support },
           [{ id := "m2", channelKey := ChannelKey.general, authorId := "u2",
              authorRole := Role.USER, content := "yo", createdAt := 2 }])) ∧
    deleteOneHandler (some ⟨"a1", Role.ADMIN⟩)
        [{ id := "m2", channelKey := ChannelKey.general, authorId := "u2",
           authorRole := Role.USER, content := "yo", createdAt := 2 }] "zz"
      = (ApiResult.thrown ("Message not found"),
         [{ id := "m2", channelKey := ChannelKey.general, authorId := "u2",
            authorRole := Role.USER, content := "yo", createdAt := 2 }]) := by
  constructor
  · refine ⟨rfl, by decide, ?_⟩
    have h := ((delete_message_exact ⟨"a1", Role.ADMIN⟩
        [{ id := "m1", channelKey := ChannelKey.support, authorId := "u1",
           authorRole := Role.USER, content := "hi", createdAt := 1 },
         { id := "m2", channelKey := ChannelKey.general, authorId := "u2",
           authorRole := Role.USER, content := "yo", createdAt := 2 }] "m1" rfl).1
        { id := "m1", channelKey := ChannelKey.support, authorId := "u1",
          authorRole := Role.USER, content := "hi", createdAt := 1 } (by decide)).1
    rw [h]
    decide
  · exact (delete_message_exact ⟨"a1", Role.ADMIN⟩
        [{ id := "m2", channelKey := ChannelKey.general, authorId := "u2",
           authorRole := Role.USER, content := "yo", createdAt := 2 }] "zz" rfl).2
      (by decide)

theorem map_id_nodup_channelRows (table : List Message) (channel : ChannelKey)
    (h : (table.map Message.id).Nodup) :
    ((channelRows table channel).map Message.id).Nodup := by
  have hsub : List.Sublist
      ((table.filter (fun m => (m.channelKey = channel : Bool))).map Message.id)
      (table.map Message.id) :=
    (List.filter_sublist table).map Message.id
  have hfil : ((table.filter (fun m => (m.channelKey = channel : Bool))).map
      Message.id).Nodup := h.sublist hsub
  have hperm : List.Perm ((channelRows table channel).map Message.id)
      ((table.filter (fun m => (m.channelKey = channel : Bool))).map Message.id) :=
    (List.perm_insertionSort msgDescRel _).map Message.id
  exact hperm.nodup_iff.mpr hfil

theorem dropWhile_ne_get :
    ∀ (l : List Message), (l.map Message.id).Nodup →
      ∀ (i : Nat) (hi : i < l.length),
        l.dropWhile (fun m => !(m.id = (l.get ⟨i, hi⟩).id : Bool)) = l.drop i
  | [], _, i, hi => absurd hi (Nat.not_lt_zero i)
  | a :: tl, h, 0, hi => by
    simp [List.dropWhile_cons]
  | a :: tl, h, j + 1, hi => by
    rw [List.map_cons] at h
    rcases List.nodup_cons.mp h with ⟨hna, htl⟩
    have hj : j < tl.length := Nat.lt_of_succ_lt_succ hi
    have hget : (a :: tl).get ⟨j + 1, hi⟩ = tl.get ⟨j, hj⟩ := rfl
    rw [hget]
    have hmem : (tl.get ⟨j, hj⟩).id ∈ tl.map Message.id :=
      List.mem_map.mpr ⟨tl.get ⟨j, hj⟩, List.get_mem tl j hj, rfl⟩
    have hne : a.id ≠ (tl.get ⟨j, hj⟩).id := by
      intro he
      exact hna (he ▸ hmem)
    rw [List.dropWhile_cons_of_pos (by simpa using hne)]
    have ihh := dropWhile_ne_get tl htl j hj
    simpa using ihh

theorem pageOf_cursor (l : List Message) (h : (l.map Message.id).Nodup)
    (t i : Nat) (hi : i < l.length) :
    pageOf l t (some (l.get ⟨i, hi⟩).id) = (l.drop (i + 1)).take t := by
  show ((l.dropWhile (fun m => !(m.id = (l.get ⟨i, hi⟩).id : Bool))).drop 1).take t
      = (l.drop (i + 1)).take t
  rw [dropWhile_ne_get l h i hi, List.drop_drop]

theorem page_getLast (l : List Message) (s t : Nat) (hs : s < l.length) (ht : 0 < t)
    (hidx : s + (min t (l.length - s) - 1) < l.length) :
    ((l.drop s).take t).getLast?
      = some (l.get ⟨s + (min t (l.length - s) - 1), hidx⟩) := by
  have hlen : ((l.drop s).take t).length = min t (l.length - s) := by
    simp [List.length_take, List.length_drop]
  rw [List.getLast?_eq_getElem?, hlen]
  have hklt : min t (l.length - s) - 1 < t := by omega
  rw [List.getElem?_take_of_lt hklt, List.getElem?_drop]
  rw [List.getElem?_eq_getElem hidx]
  simp [List.get_eq_getElem]

theorem pagesAux_from (l : List Message) (t : Nat) (ht : 0 < t)
    (h : (l.map Message.id).Nodup) :
    ∀ (f i : Nat) (hi : i < l.length), l.length - (i + 1) ≤ f * t →
      pagesAux l t f (some ((l.get ⟨i, hi⟩).id)) = l.drop (i + 1) := by
  intro f
  induction f with
  | zero =>
    intro i hi hb
    have hd : l.drop (i + 1) = [] := List.drop_eq_nil_of_le (by omega)
    simp [pagesAux, hd]
  | succ f ihf =>
    intro i hi hb
    have hpage : pageOf l t (some ((l.get ⟨i, hi⟩).id)) = (l.drop (i + 1)).take t :=
      pageOf_cursor l h t i hi
    by_cases hend : l.length ≤ i + 1
    · have hd : l.drop (i + 1) = [] := List.drop_eq_nil_of_le hend
      simp only [pagesAux]
      rw [hpage, hd]
      simp
    · push_neg at hend
      have hidx : i + 1 + (min t (l.length - (i + 1)) - 1) < l.length := by omega
      have hgl := page_getLast l (i + 1) t hend ht hidx
      have hsm : (f + 1) * t = f * t + t := Nat.succ_mul f t
      have hb2 : l.length - (i + 1 + (min t (l.length - (i + 1)) - 1) + 1) ≤ f * t := by
        omega
      simp only [pagesAux, hpage, hgl]
      rw [ihf (i + 1 + (min t (l.length - (i + 1)) - 1)) hidx hb2]
      rcases Nat.le_total t (l.length - (i + 1)) with hle | hle
      · have hmin : min t (l.length - (i + 1)) = t := Nat.min_eq_left hle
        have harith : i + 1 + (min t (l.length - (i + 1)) - 1) + 1 = i + 1 + t := by
          omega
        rw [harith]
        exact List.drop_take_append_drop l (i + 1) t
      · have harith : i + 1 + (min t (l.length - (i + 1)) - 1) + 1 = l.length := by
          omega
        rw [harith, List.drop_eq_nil_of_le (Nat.le_refl _), List.append_nil]
        apply List.take_of_length_le
        rw [List.length_drop]
        omega

theorem pagesAux_start (l : List Message) (t : Nat) (ht : 0 < t)
    (h : (l.map Message.id).Nodup) (f : Nat) (hf : l.length ≤ (f + 1) * t) :
    pagesAux l t (f + 1) none = l := by
  by_cases hnil : l.length = 0
  · have hl : l = [] := List.length_eq_zero.mp hnil
    subst hl
    simp [pagesAux, pageOf]
  · have hpos : 0 < l.length := Nat.pos_of_ne_zero hnil
    have hpage : pageOf l t none = (l.drop 0).take t := rfl
    have hidx : 0 + (min t (l.length - 0) - 1) < l.length := by omega
    have hgl := page_getLast l 0 t hpos ht hidx
    have hsm : (f + 1) * t = f * t + t := Nat.succ_mul f t
    have hb2 : l.length - (0 + (min t (l.length - 0) - 1) + 1) ≤ f * t := by omega
    simp only [pagesAux]
    simp only [hpage, hgl]
    rw [pagesAux_from l t ht h f (0 + (min t (l.length - 0) - 1)) hidx hb2]
    rcases Nat.le_total t l.length with hle | hle
    · have harith : 0 + (min t (l.length - 0) - 1) + 1 = 0 + t := by omega
      rw [harith, List.drop_take_append_drop]
      rfl
    · have harith : 0 + (min t (l.length - 0) - 1) + 1 = l.length := by omega
      rw [harith, List.drop_eq_nil_of_le (Nat.le_refl _), List.append_nil]
      exact List.take_of_length_le hle

theorem listMessages_sorted (table : List Message) (channel : ChannelKey)
    (t : Nat) (cursor : Option String) :
    List.Sorted msgDescRel (listMessages table channel t cursor) := by
  have hs : List.Sorted msgDescRel (channelRows table channel) :=
    List.sorted_insertionSort msgDescRel _
  have hsub : List.Sublist (listMessages table channel t cursor)
      (channelRows table channel) := by
    unfold listMessages pageOf
    cases cursor with
    | none => exact List.take_sublist t _
    | some c =>
      exact (List.take_sublist _ _).trans
        ((List.drop_sublist _ _).trans (List.dropWhile_sublist _))
  exact List.Pairwise.sublist hsub hs

theorem pageAll_complete (table : List Message) (channel : ChannelKey) (t f : Nat)
    (ht : 0 < t) (hnd : (table.map Message.id).Nodup)
    (hf : (channelRows table channel).length ≤ (f + 1) * t) :
    pageAll table channel t (f + 1) = channelRows table channel :=
  pagesAux_start (channelRows table channel) t ht
    (map_id_nodup_channelRows table channel hnd) f hf

/-- C7: for an authorized list call that passed DTO validation, the handler
returns the page computed with page size defaulting to 50 when absent and
never above 100; the returned rows are in descending creation-time order;
and repeated listing with successive exclusive cursors yields exactly the
channel's rows, with no duplicates and no gaps, down to the oldest. -/
theorem list_pagination (table : List Message) (u : HttpUser) (q : ListQuery) (f : Nat)
    (hacc : assertChannelAccess q.channel u.role = Except.ok ())
    (hq : validListQuery q = true)
    (hnd : (table.map Message.id).Nodup)
    (hf : (channelRows table q.channel).length ≤ (f + 1) * (q.take.getD 50)) :
    listHandler (some u) table q
      = ApiResult.ok (listMessages table q.channel (q.take.getD 50) q.cursor) ∧
    (q.take = none → q.take.getD 50 = 50) ∧
    q.take.getD 50 ≤ 100 ∧
    List.Sorted msgDescRel (listMessages table q.channel (q.take.getD 50) q.cursor) ∧
    pageAll table q.channel (q.take.getD 50) (f + 1) = channelRows table q.channel := by
  have hrange : 1 ≤ q.take.getD 50 ∧ q.take.getD 50 ≤ 100 := by
    cases hqt : q.take with
    | none => simp
    | some n =>
      simp [validListQuery, hqt] at hq
      simpa using hq
  refine ⟨?_, ?_, hrange.2,
    listMessages_sorted table q.channel (q.take.getD 50) q.cursor,
    pageAll_complete table q.channel (q.take.getD 50) f hrange.1 hnd hf⟩
  · simp [listHandler, hq, hacc]
  · intro hn
    rw [hn]
    rfl

theorem list_pagination_witness :
    (assertChannelAccess ChannelKey.general Role.USER = Except.ok () ∧
      validListQuery { channel := ChannelKey.general, cursor := none, take := some 2 }
        = true ∧
      (([{ id := "a", channelKey := ChannelKey.general, authorId := "u1",
           authorRole := Role.USER, content := "c3", createdAt := 3 },
         { id := "b", channelKey := ChannelKey.general, authorId := "u1",
           authorRole := Role.USER, content := "c1", createdAt := 1 },
         { id := "c", channelKey := ChannelKey.general, authorId := "u1",
           authorRole := Role.USER, content := "c5", createdAt := 5 },
         { id := "d", channelKey := ChannelKey.general, authorId := "u1",
           authorRole := Role.USER, content := "c2", createdAt := 2 },
         { id := "e", channelKey := ChannelKey.general, authorId := "u1",
           authorRole := Role.USER, content := "c4", createdAt := 4 }]
          : List Message).map Message.id).Nodup ∧
      (channelRows
          [{ id := "a", channelKey := ChannelKey.general, authorId := "u1",
             authorRole := Role.USER, content := "c3", createdAt := 3 },
           { id := "b", channelKey := ChannelKey.general, authorId := "u1",
             authorRole := Role.USER, content := "c1", createdAt := 1 },
           { id := "c", channelKey := ChannelKey.general, authorId := "u1",
             authorRole := Role.USER, content := "c5", createdAt := 5 },
           { id := "d", channelKey := ChannelKey.general, authorId := "u1",
             authorRole := Role.USER, content := "c2", createdAt := 2 },
           { id := "e", channelKey := ChannelKey.general, authorId := "u1",
             authorRole := Role.USER, content := "c4", createdAt := 4 }]
          ChannelKey.general).length ≤ (2 + 1) * 2) ∧
    pageAll
        [{ id := "a", channelKey := ChannelKey.general, authorId := "u1",
           authorRole := Role.USER, content := "c3", createdAt := 3 },
         { id := "b", channelKey := ChannelKey.general, authorId := "u1",
           authorRole := Role.USER, content := "c1", createdAt := 1 },
         { id := "c", channelKey := ChannelKey.general, authorId := "u1",
           authorRole := Role.USER, content := "c5", createdAt := 5 },
         { id := "d", channelKey := ChannelKey.general, authorId := "u1",
           authorRole := Role.USER, content := "c2", createdAt := 2 },
         { id := "e", channelKey := ChannelKey.general, authorId := "u1",
           authorRole := Role.USER, content := "c4", createdAt := 4 }]
        ChannelKey.general 2 3
      = channelRows
          [{ id := "a", channelKey := ChannelKey.general, authorId := "u1",
             authorRole := Role.USER, content := "c3", createdAt := 3 },
           { id := "b", channelKey := ChannelKey.general, authorId := "u1",
             authorRole := Role.USER, content := "c1", createdAt := 1 },
           { id := "c", channelKey := ChannelKey.general, authorId := "u1",
             authorRole := Role.USER, content := "c5", createdAt := 5 },
           { id := "d", channelKey := ChannelKey.general, authorId := "u1",
             authorRole := Role.USER, content := "c2", createdAt := 2 },
           { id := "e", channelKey := ChannelKey.general, authorId := "u1",
             authorRole := Role.USER, content := "c4", createdAt := 4 }]
          ChannelKey.general :=
  ⟨⟨by decide, by decide, by decide, by decide⟩,
   (list_pagination
      [{ id := "a", channelKey := ChannelKey.general, authorId := "u1",
         authorRole := Role.USER, content := "c3", createdAt := 3 },
       { id := "b", channelKey := ChannelKey.general, authorId := "u1",
         authorRole := Role.USER, content := "c1", createdAt := 1 },
       { id := "c", channelKey := ChannelKey.general, authorId := "u1",
         authorRole := Role.USER, content := "c5", createdAt := 5 },
       { id := "d", channelKey := ChannelKey.general, authorId := "u1",
         authorRole := Role.USER, content := "c2", createdAt := 2 },
       { id := "e", channelKey := ChannelKey.general, authorId := "u1",
         authorRole := Role.USER, content := "c4", createdAt := 4 }]
      { id := "u1", role := Role.USER }
      { channel := ChannelKey.general, cursor := none, take := some 2 } 2
      (by decide) (by decide) (by decide) (by decide)).2.2.2.2⟩
